import Mathlib

/-!
Shallow embedding of the M5Unit-Sonic driver (`src/Unit_Sonic.h`,
`src/Unit_Sonic.cpp`), a non-blocking ultrasonic range-finder driver with two
transports: a polled I2C variant (class `SONIC_I2C`) and an interrupt-driven
GPIO variant (class `SONIC_IO`).

Modelling conventions:
* `uint32_t` values are `Nat` reduced modulo `2^32`; the wrapping unsigned
  subtraction `a - b` of C++ becomes `usub32`.
* The monotonic clocks `millis()` / `micros()` are passed in explicitly as a
  `Nat` argument at each call that reads them.
* The C++ `float` accessors are modelled over `ℚ`; every concrete value the
  development evaluates them at (4.5, 3.0, 857.5) is exactly representable in
  IEEE single precision and produced by exact IEEE divisions, so the rational
  model agrees with the C++ float computation at those points.
* Methods that touch the bus or GPIO pins return, besides the new state and
  the C++ return value, effect flags (`triggered`, `busRead`, `timedOut`)
  recording which externally visible actions the call performed.
-/

/-- `2^32`, the modulus of all `uint32_t` arithmetic in the driver. -/
def U32 : Nat := 4294967296

/-- Wrapping 32-bit unsigned subtraction, as in C++ `uint32_t` `a - b`. -/
def usub32 (a b : Nat) : Nat := (a % U32 + U32 - b % U32) % U32

/-- `#define SONIC_MAX_DISTANCE 4500` (farthest detectable distance, mm). -/
def SONIC_MAX_DISTANCE : Nat := 4500

/-- `#define SONIC_I2C_DATA_TIME 120` (ms needed to get data from the chip). -/
def SONIC_I2C_DATA_TIME : Nat := 120

/-- `#define SONIC_IO_TIMEOUT_MS 120` (timeout for a full measurement). -/
def SONIC_IO_TIMEOUT_MS : Nat := 120

/-- `U32_SONIC_PULSE_TO_UM(x)` = `(uint32_t)((x * 343) / 2)`, with the
multiplication performed in `uint32_t` (hence the wrap before dividing). -/
def U32_SONIC_PULSE_TO_UM (x : Nat) : Nat := (x % U32 * 343 % U32) / 2

/-- Private state of class `SONIC_I2C` (the bus-configuration bytes, which no
claim touches, are omitted): `_sensor_data_timer`, `_sensor_data` (raw device
counts), `_sensor_busy`. -/
structure SONIC_I2C_State where
  _sensor_data_timer : Nat
  _sensor_data : Nat
  _sensor_busy : Bool
deriving DecidableEq

/-- Header member initializers of `SONIC_I2C`: timer `0`, data
`SONIC_MAX_DISTANCE`, busy `false`. -/
def SONIC_I2C_initialState : SONIC_I2C_State :=
  { _sensor_data_timer := 0, _sensor_data := SONIC_MAX_DISTANCE, _sensor_busy := false }

/-- `SONIC_I2C::start_timer`: `*timer = millis()` — the value stored. -/
def SONIC_I2C_start_timer (now : Nat) : Nat := now % U32

/-- `SONIC_I2C::timer_expired`:
`(millis() - *timer > timeout && *timer != 0) ? true : false`. -/
def SONIC_I2C_timer_expired (timer timeout now : Nat) : Bool :=
  if usub32 now timer > timeout ∧ timer ≠ 0 then true else false

/-- `SONIC_I2C::stop_timer`: `*timer = 0` — the sentinel stored. -/
def SONIC_I2C_stop_timer : Nat := 0

/-- Result of one `SONIC_I2C::readingAvailable()` call: the C++ return value
`ret`, the updated object state, and effect flags: `triggered` (the trigger
command `0x01` was written on the bus) and `busRead` (the 3-byte
`requestFrom`/`read` burst was performed). -/
structure SONIC_I2C_PollResult where
  ret : Bool
  state : SONIC_I2C_State
  triggered : Bool
  busRead : Bool
deriving DecidableEq

/-- `SONIC_I2C::readingAvailable()`. `now` is `millis()`; `b0 b1 b2` are the
three bytes the bus returns (first byte read is the most significant). -/
def SONIC_I2C_readingAvailable (s : SONIC_I2C_State) (now b0 b1 b2 : Nat) :
    SONIC_I2C_PollResult :=
  let trig := !s._sensor_busy
  let s1 := if trig then
      { s with _sensor_busy := true,
               _sensor_data_timer := SONIC_I2C_start_timer now }
    else s
  if SONIC_I2C_timer_expired s1._sensor_data_timer SONIC_I2C_DATA_TIME now then
    { ret := true,
      state := { s1 with
        _sensor_data :=
          Nat.lor (Nat.lor ((b0 % 256) <<< 16) ((b1 % 256) <<< 8)) (b2 % 256) % U32,
        _sensor_busy := false,
        _sensor_data_timer := SONIC_I2C_stop_timer },
      triggered := trig, busRead := true }
  else
    { ret := false, state := s1, triggered := trig, busRead := false }

/-- `SONIC_I2C::getDistance()`:
`min(float(_sensor_data) / 1000.0, float(SONIC_MAX_DISTANCE))`. -/
def SONIC_I2C_getDistance (s : SONIC_I2C_State) : ℚ :=
  min ((s._sensor_data : ℚ) / 1000) (SONIC_MAX_DISTANCE : ℚ)

/-- `SONIC_I2C::getDistance_uint16()`:
`min((uint16_t)(_sensor_data / 1000), (uint16_t)SONIC_MAX_DISTANCE)`. -/
def SONIC_I2C_getDistance_uint16 (s : SONIC_I2C_State) : Nat :=
  min (s._sensor_data / 1000 % 65536) SONIC_MAX_DISTANCE

/-- `SONIC_I2C::getStatus()`: returns `_sensor_busy`. -/
def SONIC_I2C_getStatus (s : SONIC_I2C_State) : Bool := s._sensor_busy

/-- Private state of class `SONIC_IO` (the two pin numbers, which no claim
touches, are omitted). -/
structure SONIC_IO_State where
  _sensor_pulse_start : Nat
  _sensor_timeout_timer : Nat
  _sensor_pulse_duration : Nat
  _sensor_data : Nat
  _sensor_busy : Bool
  _sensor_data_ready : Bool
deriving DecidableEq

/-- Header member initializers of `SONIC_IO`: all timers and the pulse fields
`0`, data `SONIC_MAX_DISTANCE`, busy and data-ready `false`. -/
def SONIC_IO_initialState : SONIC_IO_State :=
  { _sensor_pulse_start := 0, _sensor_timeout_timer := 0,
    _sensor_pulse_duration := 0, _sensor_data := SONIC_MAX_DISTANCE,
    _sensor_busy := false, _sensor_data_ready := false }

/-- `SONIC_IO::start_timer`: `*timer = millis()` — the value stored. -/
def SONIC_IO_start_timer (now : Nat) : Nat := now % U32

/-- `SONIC_IO::timer_expired`:
`(millis() - *timer > timeout && *timer != 0) ? true : false`. -/
def SONIC_IO_timer_expired (timer timeout now : Nat) : Bool :=
  if usub32 now timer > timeout ∧ timer ≠ 0 then true else false

/-- `SONIC_IO::stop_timer`: `*timer = 0` — the sentinel stored. -/
def SONIC_IO_stop_timer : Nat := 0

/-- `SONIC_IO::echo_isr_rising()`: `_sensor_pulse_start = micros()`. -/
def SONIC_IO_echo_isr_rising (s : SONIC_IO_State) (nowMicros : Nat) :
    SONIC_IO_State :=
  { s with _sensor_pulse_start := nowMicros % U32 }

/-- `SONIC_IO::echo_isr_falling()`:
`_sensor_pulse_duration = micros() - _sensor_pulse_start; _sensor_data_ready = true`. -/
def SONIC_IO_echo_isr_falling (s : SONIC_IO_State) (nowMicros : Nat) :
    SONIC_IO_State :=
  { s with _sensor_pulse_duration := usub32 nowMicros s._sensor_pulse_start,
           _sensor_data_ready := true }

/-- `SONIC_IO::data_collected()`: stop the timeout timer, clear the data-ready
and busy flags. -/
def SONIC_IO_data_collected (s : SONIC_IO_State) : SONIC_IO_State :=
  { s with _sensor_timeout_timer := SONIC_IO_stop_timer,
           _sensor_data_ready := false, _sensor_busy := false }

/-- Result of one `SONIC_IO::readingAvailable()` call: the C++ return value
`ret`, the updated object state, and effect flags: `triggered` (a 10 µs
trigger pulse was emitted on the trigger pin) and `timedOut` (the timeout
branch executed, substituting the sentinel). -/
structure SONIC_IO_PollResult where
  ret : Bool
  state : SONIC_IO_State
  triggered : Bool
  timedOut : Bool
deriving DecidableEq

/-- `SONIC_IO::readingAvailable()`. `nowMillis` is `millis()`. -/
def SONIC_IO_readingAvailable (s : SONIC_IO_State) (nowMillis : Nat) :
    SONIC_IO_PollResult :=
  let trig := !s._sensor_busy
  let s1 := if trig then
      { s with _sensor_busy := true, _sensor_data_ready := false,
               _sensor_timeout_timer := SONIC_IO_start_timer nowMillis }
    else s
  if s1._sensor_data_ready then
    { ret := true,
      state := SONIC_IO_data_collected
        { s1 with _sensor_data := U32_SONIC_PULSE_TO_UM s1._sensor_pulse_duration },
      triggered := trig, timedOut := false }
  else if SONIC_IO_timer_expired s1._sensor_timeout_timer SONIC_IO_TIMEOUT_MS nowMillis then
    { ret := true,
      state := SONIC_IO_data_collected { s1 with _sensor_data := SONIC_MAX_DISTANCE },
      triggered := trig, timedOut := true }
  else
    { ret := false, state := s1, triggered := trig, timedOut := false }

/-- `SONIC_IO::getDistance()`:
`min(F_SONIC_UM_TO_MM(_sensor_data), float(SONIC_MAX_DISTANCE))` with
`F_SONIC_UM_TO_MM(x) = float(x / 1000.0)`. -/
def SONIC_IO_getDistance (s : SONIC_IO_State) : ℚ :=
  min ((s._sensor_data : ℚ) / 1000) (SONIC_MAX_DISTANCE : ℚ)

/-- `SONIC_IO::getDistance_uint16()`:
`min(U16_SONIC_UM_TO_MM(_sensor_data), (uint16_t)SONIC_MAX_DISTANCE)` with
`U16_SONIC_UM_TO_MM(x) = (uint16_t)(x / 1000)`. -/
def SONIC_IO_getDistance_uint16 (s : SONIC_IO_State) : Nat :=
  min (s._sensor_data / 1000 % 65536) SONIC_MAX_DISTANCE

/-- `SONIC_IO::getStatus()`: returns `_sensor_busy`. -/
def SONIC_IO_getStatus (s : SONIC_IO_State) : Bool := s._sensor_busy

/-- Iterate `SONIC_I2C::readingAvailable()` over a list of inputs, each a
tuple `(millis value, byte0, byte1, byte2)`; returns the final state and the
list of return values, in call order. -/
def SONIC_I2C_runPolls :
    SONIC_I2C_State → List (Nat × Nat × Nat × Nat) → SONIC_I2C_State × List Bool
  | s, [] => (s, [])
  | s, (now, b0, b1, b2) :: rest =>
    let r := SONIC_I2C_readingAvailable s now b0 b1 b2
    let q := SONIC_I2C_runPolls r.state rest
    (q.1, r.ret :: q.2)

/-! ### Helper lemmas -/

/-- Wrapping subtraction agrees with `Nat` subtraction when no wrap occurs. -/
lemma usub32_eq (a b : Nat) (hab : b ≤ a) (ha : a < U32) : usub32 a b = a - b := by
  unfold usub32 U32 at *
  omega

/-- Subtracting the freshly started timer value from the same clock value
yields zero. -/
lemma usub32_cancel (n : Nat) : usub32 n (n % U32) = 0 := by
  unfold usub32 U32
  omega

/-- A pulse that rises at `a` and falls `5000` ticks later measures `5000`,
for every clock value `a` (the wrapping subtraction cancels the wrap). -/
lemma usub32_shift (a : Nat) : usub32 (a + 5000) (a % U32) = 5000 := by
  unfold usub32 U32
  omega

/-- Evaluation rule for `SONIC_I2C_getDistance` below the clamp. -/
lemma SONIC_I2C_getDistance_eval (s : SONIC_I2C_State) (n : Nat)
    (h : s._sensor_data = n) (hle : (n : ℚ) / 1000 ≤ 4500) :
    SONIC_I2C_getDistance s = (n : ℚ) / 1000 := by
  have h45 : (SONIC_MAX_DISTANCE : ℚ) = 4500 := by norm_num [SONIC_MAX_DISTANCE]
  rw [SONIC_I2C_getDistance, h, h45]
  exact min_eq_left hle

/-- Evaluation rule for `SONIC_IO_getDistance` below the clamp. -/
lemma SONIC_IO_getDistance_eval (s : SONIC_IO_State) (n : Nat)
    (h : s._sensor_data = n) (hle : (n : ℚ) / 1000 ≤ 4500) :
    SONIC_IO_getDistance s = (n : ℚ) / 1000 := by
  have h45 : (SONIC_MAX_DISTANCE : ℚ) = 4500 := by norm_num [SONIC_MAX_DISTANCE]
  rw [SONIC_IO_getDistance, h, h45]
  exact min_eq_left hle

/-! ### Claims -/

/-- Claim C10: both variants initialize the raw value to 4500 raw device
counts, so before any measurement completes `getDistance()` returns
`4500 / 1000 = 4.5` and `getDistance_uint16()` returns `4` — not the
4500-millimetre maximum — because the accessors divide the raw sentinel by
1000 before clamping. -/
theorem C10_initial_sentinel_reads_small :
    SONIC_I2C_initialState._sensor_data = 4500 ∧
    SONIC_IO_initialState._sensor_data = 4500 ∧
    SONIC_I2C_getDistance SONIC_I2C_initialState = 9 / 2 ∧
    SONIC_I2C_getDistance_uint16 SONIC_I2C_initialState = 4 ∧
    SONIC_IO_getDistance SONIC_IO_initialState = 9 / 2 ∧
    SONIC_IO_getDistance_uint16 SONIC_IO_initialState = 4 ∧
    SONIC_I2C_getDistance SONIC_I2C_initialState ≠ 4500 ∧
    SONIC_IO_getDistance SONIC_IO_initialState ≠ 4500 := by
  have h1 : SONIC_I2C_getDistance SONIC_I2C_initialState = 9 / 2 := by
    rw [SONIC_I2C_getDistance_eval SONIC_I2C_initialState 4500 (by decide) (by norm_num)]
    norm_num
  have h2 : SONIC_IO_getDistance SONIC_IO_initialState = 9 / 2 := by
    rw [SONIC_IO_getDistance_eval SONIC_IO_initialState 4500 (by decide) (by norm_num)]
    norm_num
  refine ⟨by decide, by decide, h1, by decide, h2, by decide, ?_, ?_⟩
  · rw [h1]; norm_num
  · rw [h2]; norm_num

/-- Claim C3: from idle, a trigger at `millis() = 5` followed by a completion
poll at `millis() = 200` that reads the big-endian payload
`[0x00, 0x0B, 0xB8]` decodes `_sensor_data = 3000`; `getDistance()` then
returns exactly `3` and `getDistance_uint16()` returns `3`. -/
theorem C3_i2c_decode_roundtrip :
    (SONIC_I2C_readingAvailable SONIC_I2C_initialState 5 0 0 0).ret = false ∧
    (SONIC_I2C_readingAvailable (SONIC_I2C_readingAvailable SONIC_I2C_initialState 5 0 0 0).state
      200 0 11 184).ret = true ∧
    (SONIC_I2C_readingAvailable (SONIC_I2C_readingAvailable SONIC_I2C_initialState 5 0 0 0).state
      200 0 11 184).busRead = true ∧
    (SONIC_I2C_readingAvailable (SONIC_I2C_readingAvailable SONIC_I2C_initialState 5 0 0 0).state
      200 0 11 184).state._sensor_data = 3000 ∧
    SONIC_I2C_getDistance
      (SONIC_I2C_readingAvailable (SONIC_I2C_readingAvailable SONIC_I2C_initialState 5 0 0 0).state
        200 0 11 184).state = 3 ∧
    SONIC_I2C_getDistance_uint16
      (SONIC_I2C_readingAvailable (SONIC_I2C_readingAvailable SONIC_I2C_initialState 5 0 0 0).state
        200 0 11 184).state = 3 := by
  refine ⟨by decide, by decide, by decide, by decide, ?_, by decide⟩
  rw [SONIC_I2C_getDistance_eval _ 3000 (by decide) (by norm_num)]
  norm_num

/-- Claim C1 (code evaluation at the failing input): from idle, a trigger at
`millis() = 1` with no echo edges and a poll at `millis() = 122` (121 ms
elapsed, more than the 120 ms timeout) returns true, takes the timeout
branch, clears the busy and data-ready flags and stops the timeout timer —
but stores the millimetre constant 4500 into the micrometre-unit raw field,
so `getDistance()` afterwards returns `4.5`, not `4500`. -/
theorem C1_io_timeout_unit_bug :
    (SONIC_IO_readingAvailable SONIC_IO_initialState 1).ret = false ∧
    (SONIC_IO_readingAvailable (SONIC_IO_readingAvailable SONIC_IO_initialState 1).state
      122).ret = true ∧
    (SONIC_IO_readingAvailable (SONIC_IO_readingAvailable SONIC_IO_initialState 1).state
      122).timedOut = true ∧
    (SONIC_IO_readingAvailable (SONIC_IO_readingAvailable SONIC_IO_initialState 1).state
      122).state._sensor_busy = false ∧
    (SONIC_IO_readingAvailable (SONIC_IO_readingAvailable SONIC_IO_initialState 1).state
      122).state._sensor_data_ready = false ∧
    (SONIC_IO_readingAvailable (SONIC_IO_readingAvailable SONIC_IO_initialState 1).state
      122).state._sensor_timeout_timer = 0 ∧
    (SONIC_IO_readingAvailable (SONIC_IO_readingAvailable SONIC_IO_initialState 1).state
      122).state._sensor_data = 4500 ∧
    SONIC_IO_getDistance
      (SONIC_IO_readingAvailable (SONIC_IO_readingAvailable SONIC_IO_initialState 1).state
        122).state = 9 / 2 ∧
    SONIC_IO_getDistance
      (SONIC_IO_readingAvailable (SONIC_IO_readingAvailable SONIC_IO_initialState 1).state
        122).state ≠ 4500 := by
  have hq : SONIC_IO_getDistance
      (SONIC_IO_readingAvailable (SONIC_IO_readingAvailable SONIC_IO_initialState 1).state
        122).state = 9 / 2 := by
    rw [SONIC_IO_getDistance_eval _ 4500 (by decide) (by norm_num)]
    norm_num
  refine ⟨by decide, by decide, by decide, by decide, by decide, by decide, by decide, hq, ?_⟩
  rw [hq]; norm_num

/-- Claim C8 (counterexample): if the trigger happens when `millis()` reads
exactly 0, the recorded timer value is the stopped sentinel 0, so a poll
121 ms later — strictly more than the 120 ms settling time — returns false
and performs no bus read, contradicting the claim that every elapsed time
above 120 ms yields a completed poll. -/
theorem C8_counterexample_trigger_at_zero :
    (SONIC_I2C_readingAvailable SONIC_I2C_initialState 0 0 0 0).state._sensor_busy = true ∧
    (SONIC_I2C_readingAvailable SONIC_I2C_initialState 0 0 0 0).state._sensor_data_timer = 0 ∧
    (SONIC_I2C_readingAvailable (SONIC_I2C_readingAvailable SONIC_I2C_initialState 0 0 0 0).state
      121 0 0 0).ret = false ∧
    (SONIC_I2C_readingAvailable (SONIC_I2C_readingAvailable SONIC_I2C_initialState 0 0 0 0).state
      121 0 0 0).busRead = false := by
  decide

/-- Projection fact: a poll triggers a new measurement iff the object was not
busy on entry (I2C variant). -/
lemma i2c_triggered_eq (s : SONIC_I2C_State) (n b0 b1 b2 : Nat) :
    (SONIC_I2C_readingAvailable s n b0 b1 b2).triggered = !s._sensor_busy := by
  simp only [SONIC_I2C_readingAvailable, apply_ite SONIC_I2C_PollResult.triggered, ite_self]

/-- Projection fact: a poll triggers a new measurement iff the object was not
busy on entry (IO variant). -/
lemma io_triggered_eq (s : SONIC_IO_State) (m : Nat) :
    (SONIC_IO_readingAvailable s m).triggered = !s._sensor_busy := by
  simp only [SONIC_IO_readingAvailable, apply_ite SONIC_IO_PollResult.triggered, ite_self]

/-- Behaviour of a poll from a non-busy state: the trigger is issued, the
freshly started timer cannot already be expired, so the call returns false
without reading the bus and leaves the stored data untouched. -/
lemma i2c_fresh_poll (s : SONIC_I2C_State) (h : s._sensor_busy = false) (n b0 b1 b2 : Nat) :
    (SONIC_I2C_readingAvailable s n b0 b1 b2).ret = false ∧
    (SONIC_I2C_readingAvailable s n b0 b1 b2).triggered = true ∧
    (SONIC_I2C_readingAvailable s n b0 b1 b2).busRead = false ∧
    (SONIC_I2C_readingAvailable s n b0 b1 b2).state._sensor_busy = true ∧
    (SONIC_I2C_readingAvailable s n b0 b1 b2).state._sensor_data = s._sensor_data := by
  have hexp : SONIC_I2C_timer_expired (SONIC_I2C_start_timer n) SONIC_I2C_DATA_TIME n = false := by
    unfold SONIC_I2C_timer_expired SONIC_I2C_start_timer
    rw [usub32_cancel, if_neg (by omega)]
  refine ⟨?_, ?_, ?_, ?_, ?_⟩ <;> simp [SONIC_I2C_readingAvailable, h, hexp]

/-- A busy I2C object whose timer holds the stopped sentinel is stuck: one
poll changes nothing and returns false. -/
lemma i2c_stuck_step (s : SONIC_I2C_State) (hb : s._sensor_busy = true)
    (h0 : s._sensor_data_timer = 0) (n b0 b1 b2 : Nat) :
    SONIC_I2C_readingAvailable s n b0 b1 b2 =
      { ret := false, state := s, triggered := false, busRead := false } := by
  have hexp : SONIC_I2C_timer_expired s._sensor_data_timer SONIC_I2C_DATA_TIME n = false := by
    rw [h0]
    unfold SONIC_I2C_timer_expired
    rw [if_neg (by simp)]
  simp [SONIC_I2C_readingAvailable, hb, hexp]

/-- A busy I2C object whose timer holds the stopped sentinel stays stuck over
any sequence of polls. -/
lemma i2c_runPolls_stuck (inputs : List (Nat × Nat × Nat × Nat)) (s : SONIC_I2C_State)
    (hb : s._sensor_busy = true) (h0 : s._sensor_data_timer = 0) :
    (SONIC_I2C_runPolls s inputs).1 = s ∧ ∀ b ∈ (SONIC_I2C_runPolls s inputs).2, b = false := by
  induction inputs generalizing s with
  | nil => simp [SONIC_I2C_runPolls]
  | cons p rest ih =>
    obtain ⟨now, b0, b1, b2⟩ := p
    obtain ⟨ih1, ih2⟩ := ih s hb h0
    simp only [SONIC_I2C_runPolls, i2c_stuck_step s hb h0 now b0 b1 b2]
    refine ⟨ih1, ?_⟩
    intro b hbmem
    rcases List.mem_cons.mp hbmem with h | h
    · exact h
    · exact ih2 b h

/-- Claim C2: `timer_expired(timer, timeout)` returns true iff a start time is
recorded (`timer ≠ 0`, the stopped sentinel) and the elapsed time since start
strictly exceeds `timeout` (stated under a non-wrapping monotonic clock,
`timer ≤ now < 2^32`); a never-started or stopped timer reports false for
every clock value; and the two classes' `timer_expired` agree. -/
theorem C2_timer_expired_spec (timer timeout now : Nat)
    (hmono : timer ≤ now) (hnow : now < U32) :
    (SONIC_I2C_timer_expired timer timeout now = true ↔ timer ≠ 0 ∧ timeout < now - timer) ∧
    (∀ c t, SONIC_I2C_timer_expired 0 t c = false) ∧
    (∀ c t, SONIC_I2C_timer_expired SONIC_I2C_stop_timer t c = false) ∧
    (∀ c t, SONIC_IO_timer_expired SONIC_IO_stop_timer t c = false) ∧
    (∀ tm t c, SONIC_IO_timer_expired tm t c = SONIC_I2C_timer_expired tm t c) := by
  have hzero : ∀ c t : Nat, SONIC_I2C_timer_expired 0 t c = false := by
    intro c t
    simp [SONIC_I2C_timer_expired]
  refine ⟨?_, hzero, hzero, hzero, fun _ _ _ => rfl⟩
  unfold SONIC_I2C_timer_expired
  rw [usub32_eq now timer hmono hnow]
  constructor
  · intro h
    split at h
    · next hc => exact ⟨hc.2, hc.1⟩
    · exact absurd h (by simp)
  · rintro ⟨h1, h2⟩
    rw [if_pos ⟨h2, h1⟩]

/-- Witness for C2 at `timer = 1`, `timeout = 120`, `now = 122`. -/
theorem C2_timer_expired_spec_witness :
    (SONIC_I2C_timer_expired 1 120 122 = true ↔ (1 : Nat) ≠ 0 ∧ 120 < 122 - 1) ∧
    (∀ c t, SONIC_I2C_timer_expired 0 t c = false) ∧
    (∀ c t, SONIC_I2C_timer_expired SONIC_I2C_stop_timer t c = false) ∧
    (∀ c t, SONIC_IO_timer_expired SONIC_IO_stop_timer t c = false) ∧
    (∀ tm t c, SONIC_IO_timer_expired tm t c = SONIC_I2C_timer_expired tm t c) :=
  C2_timer_expired_spec 1 120 122 (by decide) (by decide)

/-- Claim C4: if the rising-edge callback fires at microsecond time `t0` and
the falling-edge callback fires at `t0 + 5000`, the next poll of a busy IO
object returns true and the decoded distance is `5000 * 343 / 2 = 857500` µm,
so `getDistance()` returns `857.5` mm. -/
theorem C4_io_pulse_5000us (s : SONIC_IO_State) (t0 nowMillis : Nat)
    (hbusy : s._sensor_busy = true) :
    (SONIC_IO_readingAvailable
      (SONIC_IO_echo_isr_falling (SONIC_IO_echo_isr_rising s t0) (t0 + 5000)) nowMillis).ret =
      true ∧
    (SONIC_IO_readingAvailable
      (SONIC_IO_echo_isr_falling (SONIC_IO_echo_isr_rising s t0) (t0 + 5000))
        nowMillis).state._sensor_data = 857500 ∧
    SONIC_IO_getDistance
      (SONIC_IO_readingAvailable
        (SONIC_IO_echo_isr_falling (SONIC_IO_echo_isr_rising s t0) (t0 + 5000))
          nowMillis).state = 1715 / 2 := by
  have hdur : (SONIC_IO_echo_isr_falling (SONIC_IO_echo_isr_rising s t0)
      (t0 + 5000))._sensor_pulse_duration = 5000 := by
    simp [SONIC_IO_echo_isr_falling, SONIC_IO_echo_isr_rising, usub32_shift]
  have hready : (SONIC_IO_echo_isr_falling (SONIC_IO_echo_isr_rising s t0)
      (t0 + 5000))._sensor_data_ready = true := by
    simp [SONIC_IO_echo_isr_falling]
  have hb2 : (SONIC_IO_echo_isr_falling (SONIC_IO_echo_isr_rising s t0)
      (t0 + 5000))._sensor_busy = true := by
    simp [SONIC_IO_echo_isr_falling, SONIC_IO_echo_isr_rising, hbusy]
  have hval : U32_SONIC_PULSE_TO_UM 5000 = 857500 := by decide
  have hdata : (SONIC_IO_readingAvailable
      (SONIC_IO_echo_isr_falling (SONIC_IO_echo_isr_rising s t0) (t0 + 5000))
        nowMillis).state._sensor_data = 857500 := by
    simp [SONIC_IO_readingAvailable, hb2, hready, SONIC_IO_data_collected, hdur, hval]
  refine ⟨by simp [SONIC_IO_readingAvailable, hb2, hready], hdata, ?_⟩
  rw [SONIC_IO_getDistance_eval _ 857500 hdata (by norm_num)]
  norm_num

/-- Witness for C4: a concrete busy IO state, rising edge at 100 µs, falling
edge at 5100 µs, poll at `millis() = 50`. -/
theorem C4_io_pulse_5000us_witness :
    (SONIC_IO_readingAvailable
      (SONIC_IO_echo_isr_falling (SONIC_IO_echo_isr_rising
        ⟨0, 7, 0, 4500, true, false⟩ 100) (100 + 5000)) 50).ret = true ∧
    (SONIC_IO_readingAvailable
      (SONIC_IO_echo_isr_falling (SONIC_IO_echo_isr_rising
        ⟨0, 7, 0, 4500, true, false⟩ 100) (100 + 5000)) 50).state._sensor_data = 857500 ∧
    SONIC_IO_getDistance
      (SONIC_IO_readingAvailable
        (SONIC_IO_echo_isr_falling (SONIC_IO_echo_isr_rising
          ⟨0, 7, 0, 4500, true, false⟩ 100) (100 + 5000)) 50).state = 1715 / 2 :=
  C4_io_pulse_5000us ⟨0, 7, 0, 4500, true, false⟩ 100 50 rfl

/-- Claim C5: for every driver state of either variant, `getDistance()` and
`getDistance_uint16()` are at most `SONIC_MAX_DISTANCE`; they are pure reads
of the state (embedded as functions of the state alone, faithful to the C++
bodies which perform no writes), so two calls on the same state return the
identical value. -/
theorem C5_accessors_bounded_pure (si : SONIC_I2C_State) (so : SONIC_IO_State) :
    SONIC_I2C_getDistance si ≤ (SONIC_MAX_DISTANCE : ℚ) ∧
    SONIC_I2C_getDistance_uint16 si ≤ SONIC_MAX_DISTANCE ∧
    SONIC_IO_getDistance so ≤ (SONIC_MAX_DISTANCE : ℚ) ∧
    SONIC_IO_getDistance_uint16 so ≤ SONIC_MAX_DISTANCE ∧
    SONIC_I2C_getDistance si = SONIC_I2C_getDistance si ∧
    SONIC_I2C_getDistance_uint16 si = SONIC_I2C_getDistance_uint16 si ∧
    SONIC_IO_getDistance so = SONIC_IO_getDistance so ∧
    SONIC_IO_getDistance_uint16 so = SONIC_IO_getDistance_uint16 so :=
  ⟨min_le_right _ _, min_le_right _ _, min_le_right _ _, min_le_right _ _,
   rfl, rfl, rfl, rfl⟩

/-- Claim C6: while the state is Measuring (busy flag set), a poll never
issues the trigger command (no I2C trigger write, no GPIO trigger pulse);
conversely, whenever a poll triggers, the object was in the Idle state. -/
theorem C6_no_retrigger_while_busy (si : SONIC_I2C_State) (so : SONIC_IO_State)
    (n m b0 b1 b2 : Nat) (hbi : si._sensor_busy = true) (hbo : so._sensor_busy = true) :
    (SONIC_I2C_readingAvailable si n b0 b1 b2).triggered = false ∧
    (SONIC_IO_readingAvailable so m).triggered = false ∧
    (∀ (t : SONIC_I2C_State) (n' c0 c1 c2 : Nat),
      (SONIC_I2C_readingAvailable t n' c0 c1 c2).triggered = true → t._sensor_busy = false) ∧
    (∀ (t : SONIC_IO_State) (m' : Nat),
      (SONIC_IO_readingAvailable t m').triggered = true → t._sensor_busy = false) := by
  refine ⟨?_, ?_, ?_, ?_⟩
  · rw [i2c_triggered_eq, hbi]; rfl
  · rw [io_triggered_eq, hbo]; rfl
  · intro t n' c0 c1 c2 h
    rw [i2c_triggered_eq] at h
    simpa using h
  · intro t m' h
    rw [io_triggered_eq] at h
    simpa using h

/-- Witness for C6 at concrete busy states. -/
theorem C6_no_retrigger_while_busy_witness :
    (SONIC_I2C_readingAvailable ⟨3, 1000, true⟩ 1 2 3 4).triggered = false ∧
    (SONIC_IO_readingAvailable ⟨0, 3, 0, 4500, true, false⟩ 5).triggered = false ∧
    (∀ (t : SONIC_I2C_State) (n' c0 c1 c2 : Nat),
      (SONIC_I2C_readingAvailable t n' c0 c1 c2).triggered = true → t._sensor_busy = false) ∧
    (∀ (t : SONIC_IO_State) (m' : Nat),
      (SONIC_IO_readingAvailable t m').triggered = true → t._sensor_busy = false) :=
  C6_no_retrigger_while_busy ⟨3, 1000, true⟩ ⟨0, 3, 0, 4500, true, false⟩ 1 5 2 3 4 rfl rfl

/-- Claim C7: for every elapsed time `t < 120` ms since the trigger (recorded
timer value `t0`, current clock `t0 + t`, no wraparound), a poll of the busy
I2C object returns false, changes nothing, and `getDistance()` is the same
before and after. -/
theorem C7_i2c_before_settling_no_effect (s : SONIC_I2C_State) (t0 t b0 b1 b2 : Nat)
    (hbusy : s._sensor_busy = true) (htimer : s._sensor_data_timer = t0)
    (hlt : t0 + t < U32) (ht : t < 120) :
    SONIC_I2C_readingAvailable s (t0 + t) b0 b1 b2 =
      { ret := false, state := s, triggered := false, busRead := false } ∧
    SONIC_I2C_getDistance (SONIC_I2C_readingAvailable s (t0 + t) b0 b1 b2).state =
      SONIC_I2C_getDistance s ∧
    (SONIC_I2C_readingAvailable s (t0 + t) b0 b1 b2).state._sensor_data = s._sensor_data := by
  have hexp : SONIC_I2C_timer_expired s._sensor_data_timer SONIC_I2C_DATA_TIME (t0 + t) = false := by
    unfold SONIC_I2C_timer_expired SONIC_I2C_DATA_TIME
    rw [htimer, usub32_eq (t0 + t) t0 (by omega) hlt, if_neg (by omega)]
  have h1 : SONIC_I2C_readingAvailable s (t0 + t) b0 b1 b2 =
      { ret := false, state := s, triggered := false, busRead := false } := by
    simp [SONIC_I2C_readingAvailable, hbusy, hexp]
  exact ⟨h1, by rw [h1], by rw [h1]⟩

/-- Witness for C7: busy state, trigger recorded at 10 ms, poll 50 ms later. -/
theorem C7_i2c_before_settling_no_effect_witness :
    SONIC_I2C_readingAvailable ⟨10, 3000, true⟩ (10 + 50) 0 0 0 =
      { ret := false, state := ⟨10, 3000, true⟩, triggered := false, busRead := false } ∧
    SONIC_I2C_getDistance (SONIC_I2C_readingAvailable ⟨10, 3000, true⟩ (10 + 50) 0 0 0).state =
      SONIC_I2C_getDistance ⟨10, 3000, true⟩ ∧
    (SONIC_I2C_readingAvailable ⟨10, 3000, true⟩ (10 + 50) 0 0 0).state._sensor_data =
      SONIC_I2C_State._sensor_data ⟨10, 3000, true⟩ :=
  C7_i2c_before_settling_no_effect ⟨10, 3000, true⟩ 10 50 0 0 0 rfl rfl (by decide) (by decide)

/-- Claim C8 (amended): provided the clock read a nonzero value at the trigger
(recorded timer `t0 ≠ 0`), for every elapsed time `t > 120` ms the next poll
performs the 3-byte bus read, stops the timer, clears the busy flag, and
returns true; the immediately following poll starts a new cycle and returns
false without reading the bus. -/
theorem C8_i2c_after_settling_completes_once (s : SONIC_I2C_State) (t0 t b0 b1 b2 : Nat)
    (hbusy : s._sensor_busy = true) (htimer : s._sensor_data_timer = t0)
    (h0 : t0 ≠ 0) (hlt : t0 + t < U32) (ht : 120 < t) :
    (SONIC_I2C_readingAvailable s (t0 + t) b0 b1 b2).ret = true ∧
    (SONIC_I2C_readingAvailable s (t0 + t) b0 b1 b2).busRead = true ∧
    (SONIC_I2C_readingAvailable s (t0 + t) b0 b1 b2).triggered = false ∧
    (SONIC_I2C_readingAvailable s (t0 + t) b0 b1 b2).state._sensor_busy = false ∧
    (SONIC_I2C_readingAvailable s (t0 + t) b0 b1 b2).state._sensor_data_timer = 0 ∧
    (∀ n2 c0 c1 c2 : Nat,
      (SONIC_I2C_readingAvailable (SONIC_I2C_readingAvailable s (t0 + t) b0 b1 b2).state
        n2 c0 c1 c2).ret = false ∧
      (SONIC_I2C_readingAvailable (SONIC_I2C_readingAvailable s (t0 + t) b0 b1 b2).state
        n2 c0 c1 c2).triggered = true ∧
      (SONIC_I2C_readingAvailable (SONIC_I2C_readingAvailable s (t0 + t) b0 b1 b2).state
        n2 c0 c1 c2).busRead = false) := by
  have hexp : SONIC_I2C_timer_expired s._sensor_data_timer SONIC_I2C_DATA_TIME (t0 + t) = true := by
    unfold SONIC_I2C_timer_expired SONIC_I2C_DATA_TIME
    rw [htimer, usub32_eq (t0 + t) t0 (by omega) hlt, if_pos ⟨by omega, h0⟩]
  have hnb : (SONIC_I2C_readingAvailable s (t0 + t) b0 b1 b2).state._sensor_busy = false := by
    simp [SONIC_I2C_readingAvailable, hbusy, hexp]
  refine ⟨by simp [SONIC_I2C_readingAvailable, hbusy, hexp],
    by simp [SONIC_I2C_readingAvailable, hbusy, hexp],
    by rw [i2c_triggered_eq, hbusy]; rfl,
    hnb,
    by simp [SONIC_I2C_readingAvailable, hbusy, hexp, SONIC_I2C_stop_timer], ?_⟩
  intro n2 c0 c1 c2
  obtain ⟨hr, htr, hbr, _, _⟩ := i2c_fresh_poll _ hnb n2 c0 c1 c2
  exact ⟨hr, htr, hbr⟩

/-- Witness for the amended C8: timer recorded at 1 ms, poll 121 ms later. -/
theorem C8_i2c_after_settling_completes_once_witness :
    (SONIC_I2C_readingAvailable ⟨1, 0, true⟩ (1 + 121) 0 11 184).ret = true ∧
    (SONIC_I2C_readingAvailable ⟨1, 0, true⟩ (1 + 121) 0 11 184).busRead = true ∧
    (SONIC_I2C_readingAvailable ⟨1, 0, true⟩ (1 + 121) 0 11 184).triggered = false ∧
    (SONIC_I2C_readingAvailable ⟨1, 0, true⟩ (1 + 121) 0 11 184).state._sensor_busy = false ∧
    (SONIC_I2C_readingAvailable ⟨1, 0, true⟩ (1 + 121) 0 11 184).state._sensor_data_timer = 0 ∧
    (∀ n2 c0 c1 c2 : Nat,
      (SONIC_I2C_readingAvailable (SONIC_I2C_readingAvailable ⟨1, 0, true⟩ (1 + 121) 0 11 184).state
        n2 c0 c1 c2).ret = false ∧
      (SONIC_I2C_readingAvailable (SONIC_I2C_readingAvailable ⟨1, 0, true⟩ (1 + 121) 0 11 184).state
        n2 c0 c1 c2).triggered = true ∧
      (SONIC_I2C_readingAvailable (SONIC_I2C_readingAvailable ⟨1, 0, true⟩ (1 + 121) 0 11 184).state
        n2 c0 c1 c2).busRead = false) :=
  C8_i2c_after_settling_completes_once ⟨1, 0, true⟩ 1 121 0 11 184 rfl rfl
    (by decide) (by decide) (by decide)

/-- Claim C9: if `millis()` reads exactly 0 at the trigger, `start_timer`
stores 0, the stopped sentinel, so `timer_expired` is false for every later
clock value; the I2C object then stays busy forever (every later poll returns
false, `getStatus()` stays true), and a busy IO object whose timeout timer
holds 0 never takes the timeout branch. -/
theorem C9_zero_clock_trigger_sticks (s : SONIC_I2C_State)
    (inputs : List (Nat × Nat × Nat × Nat))
    (hb : s._sensor_busy = true) (h0 : s._sensor_data_timer = 0) :
    SONIC_I2C_start_timer 0 = SONIC_I2C_stop_timer ∧
    (∀ c t, SONIC_I2C_timer_expired 0 t c = false) ∧
    (∀ b ∈ (SONIC_I2C_runPolls s inputs).2, b = false) ∧
    (SONIC_I2C_runPolls s inputs).1._sensor_busy = true ∧
    SONIC_I2C_getStatus (SONIC_I2C_runPolls s inputs).1 = true ∧
    (∀ so : SONIC_IO_State, so._sensor_busy = true → so._sensor_timeout_timer = 0 →
      ∀ m, (SONIC_IO_readingAvailable so m).timedOut = false) := by
  obtain ⟨h1, h2⟩ := i2c_runPolls_stuck inputs s hb h0
  refine ⟨rfl, ?_, h2, by rw [h1]; exact hb, by rw [SONIC_I2C_getStatus, h1]; exact hb, ?_⟩
  · intro c t
    simp [SONIC_I2C_timer_expired]
  · intro so hbo hto m
    have hexp : SONIC_IO_timer_expired so._sensor_timeout_timer SONIC_IO_TIMEOUT_MS m = false := by
      rw [hto]
      unfold SONIC_IO_timer_expired
      rw [if_neg (by simp)]
    simp [SONIC_IO_readingAvailable, hbo, hexp,
      apply_ite SONIC_IO_PollResult.timedOut, ite_self]

/-- Witness for C9: busy state stuck at the sentinel, polled at 121 ms and at
99999 ms. -/
theorem C9_zero_clock_trigger_sticks_witness :
    SONIC_I2C_start_timer 0 = SONIC_I2C_stop_timer ∧
    (∀ c t, SONIC_I2C_timer_expired 0 t c = false) ∧
    (∀ b ∈ (SONIC_I2C_runPolls ⟨0, 4500, true⟩ [(121, 0, 0, 0), (99999, 1, 2, 3)]).2, b = false) ∧
    (SONIC_I2C_runPolls ⟨0, 4500, true⟩ [(121, 0, 0, 0), (99999, 1, 2, 3)]).1._sensor_busy = true ∧
    SONIC_I2C_getStatus (SONIC_I2C_runPolls ⟨0, 4500, true⟩ [(121, 0, 0, 0), (99999, 1, 2, 3)]).1 = true ∧
    (∀ so : SONIC_IO_State, so._sensor_busy = true → so._sensor_timeout_timer = 0 →
      ∀ m, (SONIC_IO_readingAvailable so m).timedOut = false) :=
  C9_zero_clock_trigger_sticks ⟨0, 4500, true⟩ [(121, 0, 0, 0), (99999, 1, 2, 3)] rfl rfl
